import Mathlib

/-!
# Verification of the scraper execution contract of an NDB-cluster metrics exporter

Shallow embedding of the `collector` package's scraper family.  Every scraper
in the package has the same shape: a fixed SQL query constant, a set of metric
descriptors built with `prometheus.NewDesc`/`prometheus.BuildFQName`, and a
`Scrape` method that runs the query through `db.QueryContext`, iterates the
result set with `rows.Next()`/`rows.Scan(...)`, sends
`prometheus.MustNewConstMetric(...)` values to the channel for every decoded
row, and returns the first query or decode error unchanged.  The embedding
carries this shape as one generic execution function (`scrapeRun`) applied to
per-scraper row types and per-row emission functions transcribed from the
individual source files.

Machine integers: every numeric column the modelled scrapers scan is a
`uint64`, modelled as `Nat`; the `float64(u)` conversion applied at each
emission site is carried as the exact numeric value, since no verified claim
depends on floating-point rounding.
-/

namespace NDBExporter

/-- `prometheus.ValueType` — the type tag of an emitted metric. -/
inductive ValueType where
  | counterValue
  | gaugeValue
  | untypedValue
deriving DecidableEq, Repr

/-- Modelled from the spec: `prometheus.BuildFQName` (the metrics library is
outside src/) forms the fully-qualified metric name
`namespace_subsystem_metricname` from its three components. -/
def BuildFQName (ns sub name : String) : String :=
  ns ++ "_" ++ sub ++ "_" ++ name

/-- A metric descriptor (`prometheus.Desc`): fully-qualified name, help text,
and the ordered list of variable label names. -/
structure Desc where
  fqName : String
  help : String
  variableLabels : List String
deriving DecidableEq, Repr

/-- Modelled from the spec: `prometheus.NewDesc` (metrics library, outside
src/) packages a fully-qualified name, help text and label names into a
descriptor. -/
def NewDesc (fqName help : String) (variableLabels : List String) : Desc :=
  ⟨fqName, help, variableLabels⟩

/-- One metric sent to the channel: the descriptor, value type, numeric value
and ordered label values of a `prometheus.MustNewConstMetric(...)` call. -/
structure Metric where
  desc : Desc
  vtype : ValueType
  value : Nat
  labelValues : List String
deriving DecidableEq, Repr

/-- Modelled from the spec: `prometheus.NewConstMetric` (metrics library,
outside src/) constructs a metric and fails fast when the label-value count
does not match the descriptor's declared label-name count; the panicking
wrapper `prometheus.MustNewConstMetric` used by every scraper turns that
failure into a panic, modelled here as the `Except.error` branch. -/
def NewConstMetric (d : Desc) (vt : ValueType) (v : Nat) (lvs : List String) :
    Except String Metric :=
  if lvs.length = d.variableLabels.length then Except.ok ⟨d, vt, v, lvs⟩
  else Except.error "inconsistent label cardinality"

/-- `true` iff the metric's label-value count matches its descriptor's
label-name count, i.e. the check `MustNewConstMetric` enforces. -/
def arityOk (m : Metric) : Bool :=
  m.labelValues.length == m.desc.variableLabels.length

/-- Bookkeeping of the calls a `Scrape` invocation makes against the database
handle and its row iterator: the number of `QueryContext`, `Rows.Scan` and
`Rows.Close` calls performed so far. -/
structure Trace where
  queries : Nat
  scans : Nat
  closes : Nat
deriving DecidableEq, Repr

/-- What `db.QueryContext` plus row iteration present to one `Scrape` call:
either the query itself fails, or it yields a finite list of rows each of
which either decodes through `Rows.Scan` into the scraper's row type `ρ` or
fails with a decode error. -/
abbrev QueryOutcome (ρ : Type) := Except String (List (Except String ρ))

/-- Result of one `Scrape` call: the metrics sent to the channel in order, the
returned error value (`none` is Go's `nil`), and the updated call trace. -/
structure ScrapeOutput where
  metrics : List Metric
  result : Option String
  trace : Trace
deriving DecidableEq, Repr

/-- The row loop every scraper's `Scrape` runs:
`for rows.Next() { if err := rows.Scan(...); err != nil { return err }; ch <- ... }`.
Rows are consumed in order and each consumed row costs exactly one `Scan`; the
first decode error ends the loop carrying that error, with no metric emitted
for the failing row and no `Scan` attempted for the rows behind it; each
successfully decoded row appends its emissions to the channel. -/
def scrapeLoop (emit : ρ → List Metric) :
    List (Except String ρ) → Trace → List Metric × Option String × Trace
  | [], tr => ([], none, tr)
  | Except.error e :: _, tr => ([], some e, { tr with scans := tr.scans + 1 })
  | Except.ok r :: rest, tr =>
    let out := scrapeLoop emit rest { tr with scans := tr.scans + 1 }
    (emit r ++ out.1, out.2.1, out.2.2)

/-- The shared body of every scraper's `Scrape` method.  `QueryContext` is
called exactly once; if it fails the error is returned unchanged and no row
set was acquired (nothing to close).  Otherwise `defer rows.Close()` is
registered and the row loop runs; both return sites of the source — the early
`return err` on a decode error and the final `return nil` — fire the deferred
`Close` exactly once on the way out. -/
def scrapeRun (q : QueryOutcome ρ) (emit : ρ → List Metric) (tr : Trace) :
    ScrapeOutput :=
  match q with
  | Except.error e => ⟨[], some e, { tr with queries := tr.queries + 1 }⟩
  | Except.ok rows =>
    match scrapeLoop emit rows { tr with queries := tr.queries + 1 } with
    | (ms, some e, tr2) => ⟨ms, some e, { tr2 with closes := tr2.closes + 1 }⟩
    | (ms, none, tr2) => ⟨ms, none, { tr2 with closes := tr2.closes + 1 }⟩

/-- Modelled from the spec: the package-level subsystem/namespace string
constants are declared in a collector file outside src/.  `namespace` is the
exporter-wide metric namespace (`namespace_subsystem_metricname`); it is a
Lean keyword, hence the name `nameSpace` here. -/
def nameSpace : String := "mysql"

/-- Modelled from the spec: the `NDBInfo` subsystem constant, matching the
scraper names `"ndbinfo.nodes"`, `"ndbinfo.transporters"`, … the spec cites. -/
def NDBInfo : String := "ndbinfo"

/-- Modelled from the spec: the `informationSchema` subsystem constant,
matching the literal scraper name
`"info_schema.ndb_transid_mysql_connection_map"` in src/. -/
def informationSchema : String := "info_schema"

/-- Modelled from the spec: the `performanceSchema` subsystem constant. -/
def performanceSchema : String := "perf_schema"

/-! ## `ndbinfo.transporters` (`collector/ndbinfo_transporters.go`) -/

/-- The query constant `ndbinfoTransportersQuery`, condensed to one line. -/
def ndbinfoTransportersQuery : String :=
  "SELECT node_id, remote_node_id, status, remote_address, bytes_sent, bytes_received, connect_count, overloaded, overload_count, slowdown, slowdown_count FROM ndbinfo.transporters;"

/-- One decoded row of `ndbinfoTransportersQuery`: the scan targets declared
in `ScrapeNDBInfoTransporters.Scrape`. -/
structure TransportersRow where
  nodeID : String
  remoteNodeID : String
  status : String
  remoteAddress : String
  bytesSent : Nat
  bytesReceived : Nat
  connectCount : Nat
  overloaded : Nat
  overloadCount : Nat
  slowdown : Nat
  slowdownCount : Nat
deriving DecidableEq, Repr

def ndbinfoTransportersBytesTotalDesc : Desc :=
  NewDesc (BuildFQName nameSpace NDBInfo "transporters_bytes_total")
    "The total amount of bytes sent/received using this connection by node_id/remote_node_id/status/remote_address/action."
    ["node_id", "remote_node_id", "status", "remote_address", "action"]

def ndbinfoTransportersStatusDesc : Desc :=
  NewDesc (BuildFQName nameSpace NDBInfo "transporters_state")
    "Whether transporter has state (1) or not (0) by node_id/remote_node_id/status/remote_address/state."
    ["node_id", "remote_node_id", "status", "remote_address", "state"]

def ndbinfoTransportersCountTotalDesc : Desc :=
  NewDesc (BuildFQName nameSpace NDBInfo "transporters_count_total")
    "The total amount of times action has happened on this transporter by node_id/remote_node_id/status/remote_address/action."
    ["node_id", "remote_node_id", "status", "remote_address", "action"]

/-- `ScrapeNDBInfoTransporters.Name`. -/
def ScrapeNDBInfoTransporters.Name : String := NDBInfo ++ ".transporters"

/-- The seven `ch <- prometheus.MustNewConstMetric(...)` sends the body of the
row loop of `ScrapeNDBInfoTransporters.Scrape` performs for one decoded row,
in source order. -/
def ScrapeNDBInfoTransporters.emitRow (r : TransportersRow) : List Metric :=
  [ ⟨ndbinfoTransportersBytesTotalDesc, ValueType.counterValue, r.bytesSent,
      [r.nodeID, r.remoteNodeID, r.status, r.remoteAddress, "sent"]⟩,
    ⟨ndbinfoTransportersBytesTotalDesc, ValueType.counterValue, r.bytesReceived,
      [r.nodeID, r.remoteNodeID, r.status, r.remoteAddress, "received"]⟩,
    ⟨ndbinfoTransportersCountTotalDesc, ValueType.counterValue, r.connectCount,
      [r.nodeID, r.remoteNodeID, r.status, r.remoteAddress, "connect"]⟩,
    ⟨ndbinfoTransportersStatusDesc, ValueType.gaugeValue, r.overloaded,
      [r.nodeID, r.remoteNodeID, r.status, r.remoteAddress, "overload"]⟩,
    ⟨ndbinfoTransportersCountTotalDesc, ValueType.counterValue, r.overloadCount,
      [r.nodeID, r.remoteNodeID, r.status, r.remoteAddress, "overload"]⟩,
    ⟨ndbinfoTransportersStatusDesc, ValueType.gaugeValue, r.slowdown,
      [r.nodeID, r.remoteNodeID, r.status, r.remoteAddress, "slowdown"]⟩,
    ⟨ndbinfoTransportersCountTotalDesc, ValueType.counterValue, r.slowdownCount,
      [r.nodeID, r.remoteNodeID, r.status, r.remoteAddress, "slowdown"]⟩ ]

/-- `ScrapeNDBInfoTransporters.Scrape`: the shared scrape body applied to this
scraper's row type and per-row emissions. -/
def ScrapeNDBInfoTransporters.Scrape (q : QueryOutcome TransportersRow)
    (tr : Trace) : ScrapeOutput :=
  scrapeRun q ScrapeNDBInfoTransporters.emitRow tr

/-! ## `performance_schema.ndb_sync_excluded_objects` (src/unnamed/part_000) -/

/-- The query constant `perfNDBSyncExcludedObjectsQuery`, condensed to one
line: the two nullable text columns are coalesced in SQL with `IFNULL(_, '')`
before they reach `Scan`. -/
def perfNDBSyncExcludedObjectsQuery : String :=
  "SELECT IFNULL(SCHEMA_NAME, '') AS SCHEMA_NAME, IFNULL(NAME, '') AS NAME, TYPE, REASON FROM performance_schema.ndb_sync_excluded_objects;"

/-- `IFNULL(x, d)` — SQL coalescing of a nullable column to the default `d`. -/
def IFNULL (x : Option α) (d : α) : α := x.getD d

/-- A raw row of the `performance_schema.ndb_sync_excluded_objects` table
before the SELECT list of `perfNDBSyncExcludedObjectsQuery` is applied:
`SCHEMA_NAME` and `NAME` are nullable text columns. -/
structure NdbSyncExcludedObjectsTableRow where
  schemaNameCol : Option String
  nameCol : Option String
  typeCol : String
  reasonCol : String
deriving DecidableEq, Repr

/-- One decoded row of `perfNDBSyncExcludedObjectsQuery`: the scan targets of
`ScrapePerfNDBSyncExcludedObjects.Scrape`. -/
structure SyncExcludedObjectsRow where
  schemaName : String
  name : String
  objType : String
  reason : String
deriving DecidableEq, Repr

/-- The SELECT list of `perfNDBSyncExcludedObjectsQuery` applied to a raw
table row: `IFNULL(SCHEMA_NAME, '')`, `IFNULL(NAME, '')`, `TYPE`, `REASON`. -/
def perfNDBSyncExcludedObjectsSelect (t : NdbSyncExcludedObjectsTableRow) :
    SyncExcludedObjectsRow :=
  ⟨IFNULL t.schemaNameCol "", IFNULL t.nameCol "", t.typeCol, t.reasonCol⟩

def performanceSchemaNDBSyncExcludedObjectssDesc : Desc :=
  NewDesc (BuildFQName nameSpace performanceSchema "ndb_sync_excluded_objects")
    "Returns 1 if query is successful, 0 if error encountered."
    ["schema_name", "name", "type", "reason"]

/-- `ScrapePerfNDBSyncExcludedObjects.Name`. -/
def ScrapePerfNDBSyncExcludedObjects.Name : String :=
  performanceSchema ++ ".ndb_sync_excluded_objects"

/-- The single send of the row loop of
`ScrapePerfNDBSyncExcludedObjects.Scrape`, value `float64(1)`. -/
def ScrapePerfNDBSyncExcludedObjects.emitRow (r : SyncExcludedObjectsRow) :
    List Metric :=
  [ ⟨performanceSchemaNDBSyncExcludedObjectssDesc, ValueType.untypedValue, 1,
      [r.schemaName, r.name, r.objType, r.reason]⟩ ]

/-- `ScrapePerfNDBSyncExcludedObjects.Scrape`. -/
def ScrapePerfNDBSyncExcludedObjects.Scrape
    (q : QueryOutcome SyncExcludedObjectsRow) (tr : Trace) : ScrapeOutput :=
  scrapeRun q ScrapePerfNDBSyncExcludedObjects.emitRow tr

/-! ## `ndbinfo.disk_write_speed_aggregate` (src/unnamed/part_000) -/

/-- One decoded row of `ndbinfoDiskWriteSpeedAggregateQuery`: the scan targets
of `ScrapeNDBInfoDiskWriteSpeedAggregate.Scrape`. -/
structure DiskWriteSpeedAggregateRow where
  nodeID : String
  thrNo : String
  backupLCPSpeedLastSec : Nat
  redoSpeedLastSec : Nat
  backupLCPSpeedLast10sec : Nat
  redoSpeedLast10sec : Nat
  stdDevBackupLCPSpeedLast10sec : Nat
  stdDevREDOSpeedLast10sec : Nat
  backupLCPSpeedLast60sec : Nat
  redoSpeedLast60sec : Nat
  stdDevBackupLCPSpeedLast60sec : Nat
  stdDevREDOSpeedLast60sec : Nat
  slowdownsDueToIoLag : Nat
  slowdownsDueToHighCPU : Nat
  diskWriteSpeedSetToMin : Nat
  currentTargetDiskWriteSpeed : Nat
deriving DecidableEq, Repr

def ndbinfoDiskWriteSpeedAggregateBackupLCPSpeedDesc : Desc :=
  NewDesc (BuildFQName nameSpace NDBInfo "disk_write_speed_aggregate_backup_lcp_speed")
    "The amount of bytes written to disk by backup and LCP processes in the last time interval by node_id/thr_no/time."
    ["node_id", "thr_no", "time"]

def ndbinfoDiskWriteSpeedAggregateREDOSpeedDesc : Desc :=
  NewDesc (BuildFQName nameSpace NDBInfo "disk_write_speed_aggregate_redo_speed")
    "The amount of bytes written to REDO log in the last time interval by node_id/thr_no/time."
    ["node_id", "thr_no", "time"]

def ndbinfoDiskWriteSpeedAggregateStdDevBackupLCPSpeedDesc : Desc :=
  NewDesc (BuildFQName nameSpace NDBInfo "disk_write_speed_aggregate_std_dev_backup_lcp_speed")
    "Standard deviation in number of bytes written to disk by backup and LCP processes per second, averaged over the last x seconds by node_id/thr_no/time."
    ["node_id", "thr_no", "time"]

def ndbinfoDiskWriteSpeedAggregateStdDevREDOSpeedDesc : Desc :=
  NewDesc (BuildFQName nameSpace NDBInfo "disk_write_speed_aggregate_std_dev_redo_speed")
    "Standard deviation in number of bytes written to REDO log per second, averaged over the last x seconds by node_id/thr_no/time."
    ["node_id", "thr_no", "time"]

def ndbinfoDiskWriteSpeedAggregateSlowdownsDesc : Desc :=
  NewDesc (BuildFQName nameSpace NDBInfo "disk_write_speed_aggregate_slowdowns")
    "The amount of seconds since last node start that disk writes were slowed due to reason by node_id/thr_no/reason."
    ["node_id", "thr_no", "reason"]

def ndbinfoDiskWriteSpeedAggregateDiskWriteSpeedSetToMinDesc : Desc :=
  NewDesc (BuildFQName nameSpace NDBInfo "disk_write_speed_aggregate_disk_write_speed_set_to_min")
    "The amount of seconds since last node start that disk write speed was set to minimum by node_id/thr_no."
    ["node_id", "thr_no"]

def ndbinfoDiskWriteSpeedAggregateCurrentTargetDistWriteSpeedDesc : Desc :=
  NewDesc (BuildFQName nameSpace NDBInfo "disk_write_speed_aggregate_current_target_disk_write_speed")
    "The actual speed of disk writes (aggregated) by node_id/thr_no."
    ["node_id", "thr_no"]

/-- `ScrapeNDBInfoDiskWriteSpeedAggregate.Name`. -/
def ScrapeNDBInfoDiskWriteSpeedAggregate.Name : String :=
  NDBInfo ++ ".disk_write_speed_aggregate"

/-- The fourteen sends of the row loop of
`ScrapeNDBInfoDiskWriteSpeedAggregate.Scrape`, in source order. -/
def ScrapeNDBInfoDiskWriteSpeedAggregate.emitRow
    (r : DiskWriteSpeedAggregateRow) : List Metric :=
  [ ⟨ndbinfoDiskWriteSpeedAggregateBackupLCPSpeedDesc, ValueType.gaugeValue,
      r.backupLCPSpeedLastSec, [r.nodeID, r.thrNo, "sec"]⟩,
    ⟨ndbinfoDiskWriteSpeedAggregateBackupLCPSpeedDesc, ValueType.gaugeValue,
      r.backupLCPSpeedLast10sec, [r.nodeID, r.thrNo, "10sec"]⟩,
    ⟨ndbinfoDiskWriteSpeedAggregateBackupLCPSpeedDesc, ValueType.gaugeValue,
      r.backupLCPSpeedLast60sec, [r.nodeID, r.thrNo, "60sec"]⟩,
    ⟨ndbinfoDiskWriteSpeedAggregateREDOSpeedDesc, ValueType.gaugeValue,
      r.redoSpeedLastSec, [r.nodeID, r.thrNo, "sec"]⟩,
    ⟨ndbinfoDiskWriteSpeedAggregateREDOSpeedDesc, ValueType.gaugeValue,
      r.redoSpeedLast10sec, [r.nodeID, r.thrNo, "10sec"]⟩,
    ⟨ndbinfoDiskWriteSpeedAggregateREDOSpeedDesc, ValueType.gaugeValue,
      r.redoSpeedLast60sec, [r.nodeID, r.thrNo, "60sec"]⟩,
    ⟨ndbinfoDiskWriteSpeedAggregateStdDevBackupLCPSpeedDesc, ValueType.gaugeValue,
      r.stdDevBackupLCPSpeedLast10sec, [r.nodeID, r.thrNo, "10sec"]⟩,
    ⟨ndbinfoDiskWriteSpeedAggregateStdDevBackupLCPSpeedDesc, ValueType.gaugeValue,
      r.stdDevBackupLCPSpeedLast60sec, [r.nodeID, r.thrNo, "60sec"]⟩,
    ⟨ndbinfoDiskWriteSpeedAggregateStdDevREDOSpeedDesc, ValueType.gaugeValue,
      r.stdDevREDOSpeedLast10sec, [r.nodeID, r.thrNo, "10sec"]⟩,
    ⟨ndbinfoDiskWriteSpeedAggregateStdDevREDOSpeedDesc, ValueType.gaugeValue,
      r.stdDevREDOSpeedLast60sec, [r.nodeID, r.thrNo, "60sec"]⟩,
    ⟨ndbinfoDiskWriteSpeedAggregateSlowdownsDesc, ValueType.gaugeValue,
      r.slowdownsDueToIoLag, [r.nodeID, r.thrNo, "io_lag"]⟩,
    ⟨ndbinfoDiskWriteSpeedAggregateSlowdownsDesc, ValueType.gaugeValue,
      r.slowdownsDueToHighCPU, [r.nodeID, r.thrNo, "high_cpu"]⟩,
    ⟨ndbinfoDiskWriteSpeedAggregateDiskWriteSpeedSetToMinDesc, ValueType.gaugeValue,
      r.diskWriteSpeedSetToMin, [r.nodeID, r.thrNo]⟩,
    ⟨ndbinfoDiskWriteSpeedAggregateCurrentTargetDistWriteSpeedDesc, ValueType.gaugeValue,
      r.currentTargetDiskWriteSpeed, [r.nodeID, r.thrNo]⟩ ]

/-- `ScrapeNDBInfoDiskWriteSpeedAggregate.Scrape`. -/
def ScrapeNDBInfoDiskWriteSpeedAggregate.Scrape
    (q : QueryOutcome DiskWriteSpeedAggregateRow) (tr : Trace) : ScrapeOutput :=
  scrapeRun q ScrapeNDBInfoDiskWriteSpeedAggregate.emitRow tr

/-! ## `ndbinfo.table_replicas` (src/unnamed/part_002) -/

/-- One decoded row of `ndbinfoTableReplicasQuery`: the scan targets of
`ScrapeNDBInfoTableReplicas.Scrape`. -/
structure TableReplicasRow where
  nodeID : String
  tableID : String
  fragmentId : String
  initialGCI : String
  replicaNodeId : String
  isLCPOngoing : Nat
  numCrashedReplicas : Nat
  lastMaxGCIStarted : Nat
  lastMaxGCICompleted : Nat
  lastLCPId : Nat
  prevLCPId : Nat
  prevMaxGCIStarted : Nat
  prevMaxGCICompleted : Nat
  lastCreateGCI : Nat
  lastReplicaGCI : Nat
  isReplicaAlive : Nat
deriving DecidableEq, Repr

def ndbinfoTableReplicasIsReplicaAliveDesc : Desc :=
  NewDesc (BuildFQName nameSpace NDBInfo "table_replicas_is_replica_alive")
    "Indicates if the replica is alive (1) or not (0) by node_id/table_id/fragment_id/replica_node_id."
    ["node_id", "table_id", "fragment_id", "initial_gci", "replica_node_id"]

def ndbinfoTableReplicasNumCrashedDesc : Desc :=
  NewDesc (BuildFQName nameSpace NDBInfo "table_replicas_num_crashed")
    "Number of crashed replicas by node_id/table_id/fragment_id/initial_gci/replica_node_id."
    ["node_id", "table_id", "fragment_id", "initial_gci", "replica_node_id"]

def ndbinfoTableReplicasIsLCPOngoingDesc : Desc :=
  NewDesc (BuildFQName nameSpace NDBInfo "table_replicas_is_lcp_ongoing")
    "Is 1 if LCP is ongoing on this fragment, 0 otherwise by node_id/table_id/fragment_id/initial_gci/replica_node_id."
    ["node_id", "table_id", "fragment_id", "initial_gci", "replica_node_id"]

def ndbinfoTableReplicasLCPDesc : Desc :=
  NewDesc (BuildFQName nameSpace NDBInfo "table_replicas_lcp")
    "Last / previous LCP ID by node_id/table_id/fragment_id/initial_gci/replica_node_id/type."
    ["node_id", "table_id", "fragment_id", "initial_gci", "replica_node_id", "type"]

def ndbinfoTableReplicasGCIDesc : Desc :=
  NewDesc (BuildFQName nameSpace NDBInfo "table_replicas_gci")
    "Highest / Last GCI started by node_id/table_id/fragment_id/initial_gci/replica_node_id/type."
    ["node_id", "table_id", "fragment_id", "initial_gci", "replica_node_id", "type"]

/-- `ScrapeNDBInfoTableReplicas.Name`. -/
def ScrapeNDBInfoTableReplicas.Name : String := NDBInfo ++ ".table_replicas"

/-- The eleven sends of the row loop of `ScrapeNDBInfoTableReplicas.Scrape`,
in source order. -/
def ScrapeNDBInfoTableReplicas.emitRow (r : TableReplicasRow) : List Metric :=
  [ ⟨ndbinfoTableReplicasIsReplicaAliveDesc, ValueType.gaugeValue, r.isReplicaAlive,
      [r.nodeID, r.tableID, r.fragmentId, r.initialGCI, r.replicaNodeId]⟩,
    ⟨ndbinfoTableReplicasNumCrashedDesc, ValueType.gaugeValue, r.numCrashedReplicas,
      [r.nodeID, r.tableID, r.fragmentId, r.initialGCI, r.replicaNodeId]⟩,
    ⟨ndbinfoTableReplicasIsLCPOngoingDesc, ValueType.gaugeValue, r.isLCPOngoing,
      [r.nodeID, r.tableID, r.fragmentId, r.initialGCI, r.replicaNodeId]⟩,
    ⟨ndbinfoTableReplicasLCPDesc, ValueType.gaugeValue, r.lastLCPId,
      [r.nodeID, r.tableID, r.fragmentId, r.initialGCI, r.replicaNodeId, "last_lcp_id"]⟩,
    ⟨ndbinfoTableReplicasLCPDesc, ValueType.gaugeValue, r.prevLCPId,
      [r.nodeID, r.tableID, r.fragmentId, r.initialGCI, r.replicaNodeId, "prev_lcp_id"]⟩,
    ⟨ndbinfoTableReplicasGCIDesc, ValueType.gaugeValue, r.lastMaxGCIStarted,
      [r.nodeID, r.tableID, r.fragmentId, r.initialGCI, r.replicaNodeId, "last_max_gci_started"]⟩,
    ⟨ndbinfoTableReplicasGCIDesc, ValueType.gaugeValue, r.lastMaxGCICompleted,
      [r.nodeID, r.tableID, r.fragmentId, r.initialGCI, r.replicaNodeId, "last_max_gci_completed"]⟩,
    ⟨ndbinfoTableReplicasGCIDesc, ValueType.gaugeValue, r.prevMaxGCIStarted,
      [r.nodeID, r.tableID, r.fragmentId, r.initialGCI, r.replicaNodeId, "prev_max_gci_started"]⟩,
    ⟨ndbinfoTableReplicasGCIDesc, ValueType.gaugeValue, r.prevMaxGCICompleted,
      [r.nodeID, r.tableID, r.fragmentId, r.initialGCI, r.replicaNodeId, "prev_max_gci_completed"]⟩,
    ⟨ndbinfoTableReplicasGCIDesc, ValueType.gaugeValue, r.lastCreateGCI,
      [r.nodeID, r.tableID, r.fragmentId, r.initialGCI, r.replicaNodeId, "last_create_gci"]⟩,
    ⟨ndbinfoTableReplicasGCIDesc, ValueType.gaugeValue, r.lastReplicaGCI,
      [r.nodeID, r.tableID, r.fragmentId, r.initialGCI, r.replicaNodeId, "last_replica_gci"]⟩ ]

/-- `ScrapeNDBInfoTableReplicas.Scrape`. -/
def ScrapeNDBInfoTableReplicas.Scrape (q : QueryOutcome TableReplicasRow)
    (tr : Trace) : ScrapeOutput :=
  scrapeRun q ScrapeNDBInfoTableReplicas.emitRow tr

/-! ## `ndbinfo.files` (`collector/ndbinfo_files.go`) -/

/-- One decoded row of `ndbinfoFilesQuery`: the scan targets of
`ScrapeNDBInfoFiles.Scrape` (the query already folds
`extent_size * 1024 * 1024` into `extent_size_bytes`). -/
structure FilesRow where
  id : String
  fileType : String
  name : String
  parent : String
  parentName : String
  freeExtents : Nat
  totalExtents : Nat
  extentSize : Nat
  initialSize : Nat
  maximumSize : Nat
  autoExtendSize : Nat
deriving DecidableEq, Repr

def ndbinfoFilesExtentsDesc : Desc :=
  NewDesc (BuildFQName nameSpace NDBInfo "files_extents")
    "The amount of free extents by id/type/name/parent/parent_name/amount_type."
    ["id", "type", "name", "parent", "parent_name", "amount_type"]

def ndbinfoFilesSizeBytesDesc : Desc :=
  NewDesc (BuildFQName nameSpace NDBInfo "files_size_bytes")
    "The extent size in bytes by id/type/name/parent/parent_name/size_type."
    ["id", "type", "name", "parent", "parent_name", "size_type"]

/-- `ScrapeNDBInfoFiles.Name`. -/
def ScrapeNDBInfoFiles.Name : String := NDBInfo ++ ".files"

/-- The six sends of the row loop of `ScrapeNDBInfoFiles.Scrape`, in source
order. -/
def ScrapeNDBInfoFiles.emitRow (r : FilesRow) : List Metric :=
  [ ⟨ndbinfoFilesExtentsDesc, ValueType.gaugeValue, r.freeExtents,
      [r.id, r.fileType, r.name, r.parent, r.parentName, "free"]⟩,
    ⟨ndbinfoFilesExtentsDesc, ValueType.gaugeValue, r.totalExtents,
      [r.id, r.fileType, r.name, r.parent, r.parentName, "total"]⟩,
    ⟨ndbinfoFilesSizeBytesDesc, ValueType.gaugeValue, r.extentSize,
      [r.id, r.fileType, r.name, r.parent, r.parentName, "extent"]⟩,
    ⟨ndbinfoFilesSizeBytesDesc, ValueType.gaugeValue, r.initialSize,
      [r.id, r.fileType, r.name, r.parent, r.parentName, "initial"]⟩,
    ⟨ndbinfoFilesSizeBytesDesc, ValueType.gaugeValue, r.maximumSize,
      [r.id, r.fileType, r.name, r.parent, r.parentName, "maximum"]⟩,
    ⟨ndbinfoFilesSizeBytesDesc, ValueType.gaugeValue, r.autoExtendSize,
      [r.id, r.fileType, r.name, r.parent, r.parentName, "autoextend"]⟩ ]

/-- `ScrapeNDBInfoFiles.Scrape`. -/
def ScrapeNDBInfoFiles.Scrape (q : QueryOutcome FilesRow) (tr : Trace) :
    ScrapeOutput :=
  scrapeRun q ScrapeNDBInfoFiles.emitRow tr

/-! ## `ndbinfo.processes` (src/unnamed/part_009) -/

/-- The query constant `ndbinfoProcessesQuery`, condensed to one line: the
nullable numeric column `angel_process_id` is coalesced in SQL with
`IFNULL(_, 0)` before it reaches `Scan`. -/
def ndbinfoProcessesQuery : String :=
  "SELECT node_id, node_type, node_version, process_id, IFNULL(angel_process_id, 0) AS angel_process_id, process_name, service_URI FROM ndbinfo.processes;"

/-- A raw row of the `ndbinfo.processes` table before the SELECT list of
`ndbinfoProcessesQuery` is applied: `angel_process_id` is a nullable numeric
column. -/
structure ProcessesTableRow where
  nodeIDCol : String
  nodeTypeCol : String
  nodeVersionCol : String
  processIDCol : String
  angelProcessIDCol : Option Nat
  processNameCol : String
  serviceURICol : String
deriving DecidableEq, Repr

/-- One decoded row of `ndbinfoProcessesQuery`: the scan targets of
`ScrapeNDBInfoProcesses.Scrape`. -/
structure ProcessesRow where
  nodeID : String
  nodeType : String
  nodeVersion : String
  processID : String
  angelProcessID : Nat
  processName : String
  serviceURI : String
deriving DecidableEq, Repr

/-- The SELECT list of `ndbinfoProcessesQuery` applied to a raw table row:
every column passes through unchanged except
`IFNULL(angel_process_id, 0)`. -/
def ndbinfoProcessesSelect (t : ProcessesTableRow) : ProcessesRow :=
  ⟨t.nodeIDCol, t.nodeTypeCol, t.nodeVersionCol, t.processIDCol,
    IFNULL t.angelProcessIDCol 0, t.processNameCol, t.serviceURICol⟩

def ndbinfoProcessesAngelProcessIDDesc : Desc :=
  NewDesc (BuildFQName nameSpace NDBInfo "processes_angel_process_id")
    "Process ID of this node's angel process by node_id/node_type/node_version/process_id/process_name/service_URI. Returns 0 if no angel process is set."
    ["node_id", "node_type", "node_version", "process_id", "process_name", "service_URI"]

/-- `ScrapeNDBInfoProcesses.Name`. -/
def ScrapeNDBInfoProcesses.Name : String := NDBInfo ++ ".processes"

/-- The single send of the row loop of `ScrapeNDBInfoProcesses.Scrape`. -/
def ScrapeNDBInfoProcesses.emitRow (r : ProcessesRow) : List Metric :=
  [ ⟨ndbinfoProcessesAngelProcessIDDesc, ValueType.gaugeValue, r.angelProcessID,
      [r.nodeID, r.nodeType, r.nodeVersion, r.processID, r.processName, r.serviceURI]⟩ ]

/-- `ScrapeNDBInfoProcesses.Scrape`. -/
def ScrapeNDBInfoProcesses.Scrape (q : QueryOutcome ProcessesRow) (tr : Trace) :
    ScrapeOutput :=
  scrapeRun q ScrapeNDBInfoProcesses.emitRow tr

/-! ## `information_schema.ndb_transid_mysql_connection_map`
(`collector/info_schema_ndb_transid_mysql_connection_map.go`) -/

/-- One decoded row of `ndbConnectionMapQuery`: the scan targets of
`ScrapeNDBConnectionMap.Scrape`. -/
structure NDBConnectionMapRow where
  mysqlConnectionID : String
  nodeID : String
  ndbTransID : String
deriving DecidableEq, Repr

def infoSchemaNDBConnectionMapDesc : Desc :=
  NewDesc (BuildFQName nameSpace informationSchema "ndb_transid_mysql_connection_map")
    "NDB connections by mysql_connection_id/node_id/ndb_transid. Returns 1 if query is successful."
    ["mysql_connection_id", "node_id", "ndb_transid"]

/-- `ScrapeNDBConnectionMap.Name` — the one scraper whose name is a literal
rather than being built from a subsystem constant. -/
def ScrapeNDBConnectionMap.Name : String :=
  "info_schema.ndb_transid_mysql_connection_map"

/-- The single send of the row loop of `ScrapeNDBConnectionMap.Scrape`,
value `float64(1)`. -/
def ScrapeNDBConnectionMap.emitRow (r : NDBConnectionMapRow) : List Metric :=
  [ ⟨infoSchemaNDBConnectionMapDesc, ValueType.untypedValue, 1,
      [r.mysqlConnectionID, r.nodeID, r.ndbTransID]⟩ ]

/-- `ScrapeNDBConnectionMap.Scrape`. -/
def ScrapeNDBConnectionMap.Scrape (q : QueryOutcome NDBConnectionMapRow)
    (tr : Trace) : ScrapeOutput :=
  scrapeRun q ScrapeNDBConnectionMap.emitRow tr

/-! ## `ndbinfo.counters` (src/unnamed/part_007) -/

/-- One decoded row of `ndbinfoCountersQuery`: the scan targets of
`ScrapeNDBInfoCounters.Scrape`. -/
structure CountersRow where
  nodeID : String
  counterName : String
  val : Nat
deriving DecidableEq, Repr

/-- `ndbinfoCountersTypes`: the map of known counter names to value type and
pre-declared descriptor, transcribed entry for entry in source order (a Go map
literal with pairwise-distinct keys, carried as an association list). -/
def ndbinfoCountersTypes : List (String × ValueType × Desc) :=
  [ ("ATTRINFO", ValueType.counterValue,
      NewDesc (BuildFQName nameSpace NDBInfo "counters_attrinfo_total")
        "The number of times an interpreted program is sent to the data node by node_id." ["node_id"]),
    ("TRANSACTIONS", ValueType.counterValue,
      NewDesc (BuildFQName nameSpace NDBInfo "counters_transactions_total")
        "The total number of transactions initiated by node_id." ["node_id"]),
    ("COMMITS", ValueType.counterValue,
      NewDesc (BuildFQName nameSpace NDBInfo "counters_commits_total")
        "The number of transactions that have been committed by node_id." ["node_id"]),
    ("READS", ValueType.counterValue,
      NewDesc (BuildFQName nameSpace NDBInfo "counters_reads_total")
        "The amount of all read operations by node_id." ["node_id"]),
    ("SIMPLE_READS", ValueType.counterValue,
      NewDesc (BuildFQName nameSpace NDBInfo "counters_simple_reads_total")
        "The amount of reads where the is both the beginning and ending operation for a given transaction by node_id." ["node_id"]),
    ("WRITES", ValueType.counterValue,
      NewDesc (BuildFQName nameSpace NDBInfo "counters_writes_total")
        "The amount of the writes by node_id." ["node_id"]),
    ("ABORTS", ValueType.counterValue,
      NewDesc (BuildFQName nameSpace NDBInfo "counters_aborts_total")
        "The amount of transactions that have been aborted by node_id." ["node_id"]),
    ("TABLE_SCANS", ValueType.counterValue,
      NewDesc (BuildFQName nameSpace NDBInfo "counters_table_scans_total")
        "The amount of table scan operations performed by node_id." ["node_id"]),
    ("RANGE_SCANS", ValueType.counterValue,
      NewDesc (BuildFQName nameSpace NDBInfo "counters_range_scans_total")
        "The amount of range scan operations performed by node_id." ["node_id"]),
    ("OPERATIONS", ValueType.counterValue,
      NewDesc (BuildFQName nameSpace NDBInfo "counters_operations_total")
        "The amount of operations processed by node_id." ["node_id"]),
    ("READS_RECEIVED", ValueType.counterValue,
      NewDesc (BuildFQName nameSpace NDBInfo "counters_reads_received_total")
        "The amount of read requests received by node_id." ["node_id"]),
    ("LOCAL_READS_SENT", ValueType.counterValue,
      NewDesc (BuildFQName nameSpace NDBInfo "counters_local_reads_sent_total")
        "The amount of local read requests sent by node_id." ["node_id"]),
    ("REMOTE_READS_SENT", ValueType.counterValue,
      NewDesc (BuildFQName nameSpace NDBInfo "counters_remote_reads_sent_total")
        "The amount of remote read requests sent by node_id." ["node_id"]),
    ("READS_NOT_FOUND", ValueType.counterValue,
      NewDesc (BuildFQName nameSpace NDBInfo "counters_reads_not_found_total")
        "The amount of read requests that did not find a matching record by node_id." ["node_id"]),
    ("TABLE_SCANS_RECEIVED", ValueType.counterValue,
      NewDesc (BuildFQName nameSpace NDBInfo "counters_table_scans_received_total")
        "The amount of table scan requests received by node_id." ["node_id"]),
    ("LOCAL_TABLE_SCANS_SENT", ValueType.counterValue,
      NewDesc (BuildFQName nameSpace NDBInfo "counters_local_table_scans_sent_total")
        "The amount of local table scan requests sent by node_id." ["node_id"]),
    ("RANGE_SCANS_RECEIVED", ValueType.counterValue,
      NewDesc (BuildFQName nameSpace NDBInfo "counters_range_scans_received_total")
        "The amount of range scan requests received by node_id." ["node_id"]),
    ("LOCAL_RANGE_SCANS_SENT", ValueType.counterValue,
      NewDesc (BuildFQName nameSpace NDBInfo "counters_local_range_scans_sent_total")
        "The amount of local range scan requests sent by node_id." ["node_id"]),
    ("REMOTE_RANGE_SCANS_SENT", ValueType.counterValue,
      NewDesc (BuildFQName nameSpace NDBInfo "counters_remote_range_scans_sent_total")
        "The amount of remote range scan requests sent by node_id." ["node_id"]),
    ("SCAN_BATCHES_RETURNED", ValueType.counterValue,
      NewDesc (BuildFQName nameSpace NDBInfo "counters_scan_batches_returned_total")
        "The amount of scan batches returned by node_id." ["node_id"]),
    ("SCAN_ROWS_RETURNED", ValueType.counterValue,
      NewDesc (BuildFQName nameSpace NDBInfo "counters_scan_rows_returned_total")
        "The amount of rows returned by scan operations by node_id." ["node_id"]),
    ("PRUNED_RANGE_SCANS_RECEIVED", ValueType.counterValue,
      NewDesc (BuildFQName nameSpace NDBInfo "counters_pruned_range_scans_received_total")
        "The amount of pruned range scan requests received by node_id." ["node_id"]),
    ("CONST_PRUNED_RANGE_SCANS_RECEIVED", ValueType.counterValue,
      NewDesc (BuildFQName nameSpace NDBInfo "counters_const_pruned_range_scans_received_total")
        "The amount of constant pruned range scan requests received by node_id." ["node_id"]),
    ("LOCAL_READS", ValueType.counterValue,
      NewDesc (BuildFQName nameSpace NDBInfo "counters_local_reads_total")
        "The amount of only those reads of the primary fragment replica on the same node as the transaction coordinator by node_id." ["node_id"]),
    ("LOCAL_WRITES", ValueType.counterValue,
      NewDesc (BuildFQName nameSpace NDBInfo "counters_local_writes_total")
        "The amount of primary-key write operations using a transaction coordinator in a node that also holds the primary fragment replica of the record by node_id." ["node_id"]),
    ("LQHKEY_OVERLOAD", ValueType.counterValue,
      NewDesc (BuildFQName nameSpace NDBInfo "counters_lqhkey_overload_total")
        "The amount of primary key requests rejected at the LQH block instance due to transporter overload by node_id." ["node_id"]),
    ("LQHKEY_OVERLOAD_TC", ValueType.counterValue,
      NewDesc (BuildFQName nameSpace NDBInfo "counters_lqhkey_overload_tc_total")
        "The amount of instances where the TC node transporter was overloaded by node_id." ["node_id"]),
    ("LQHKEY_OVERLOAD_READER", ValueType.counterValue,
      NewDesc (BuildFQName nameSpace NDBInfo "counters_lqhkey_overload_reader_total")
        "The amount of instances where the API reader (reads only) node was overloaded by node_id." ["node_id"]),
    ("LQHKEY_OVERLOAD_NODE_PEER", ValueType.counterValue,
      NewDesc (BuildFQName nameSpace NDBInfo "counters_lqhkey_overload_node_peer_total")
        "The amount of instances where the next backup data node (writes only) was overloaded by node_id." ["node_id"]),
    ("LQHKEY_OVERLOAD_SUBSCRIBER", ValueType.counterValue,
      NewDesc (BuildFQName nameSpace NDBInfo "counters_lqhkey_overload_subscriber_total")
        "The amount of instances where an event subscriber (writes only) was overloaded by node_id." ["node_id"]),
    ("LQHSCAN_SLOWDOWNS", ValueType.counterValue,
      NewDesc (BuildFQName nameSpace NDBInfo "counters_lqhkey_slowdowns_total")
        "The amount of instances where a fragment scan batch size was reduced due to scanning API transporter overload by node_id." ["node_id"]) ]

/-- The Go map index `ndbinfoCountersTypes[counterName]` with its `ok`
flag: `some` when the counter name is a key of the table. -/
def countersLookup (counterName : String) : Option (ValueType × Desc) :=
  ndbinfoCountersTypes.lookup counterName

/-- The descriptor the unknown-counter branch of
`ScrapeNDBInfoCounters.Scrape` builds freshly from the row's counter name:
`prometheus.NewDesc(prometheus.BuildFQName(namespace, informationSchema,
fmt.Sprintf("counter_%s", strings.ToLower(counterName))), ...)`. -/
def countersUnknownDesc (counterName : String) : Desc :=
  NewDesc (BuildFQName nameSpace informationSchema
      ("counter_" ++ counterName.toLower))
    ("Unsupported metric from column " ++ counterName) ["node_id"]

/-- `ScrapeNDBInfoCounters.Name`. -/
def ScrapeNDBInfoCounters.Name : String := NDBInfo ++ ".counters"

/-- The body of the row loop of `ScrapeNDBInfoCounters.Scrape`: a known
counter name sends one metric with the table's pre-declared descriptor and
value type; an unknown counter name sends one untyped metric whose descriptor
is constructed from the name on the spot. -/
def ScrapeNDBInfoCounters.emitRow (r : CountersRow) : List Metric :=
  match countersLookup r.counterName with
  | some (vt, d) => [⟨d, vt, r.val, [r.nodeID]⟩]
  | none => [⟨countersUnknownDesc r.counterName, ValueType.untypedValue, r.val, [r.nodeID]⟩]

/-- `ScrapeNDBInfoCounters.Scrape`. -/
def ScrapeNDBInfoCounters.Scrape (q : QueryOutcome CountersRow) (tr : Trace) :
    ScrapeOutput :=
  scrapeRun q ScrapeNDBInfoCounters.emitRow tr

/-! ## `Name()` of every scraper type of the collector package

Each definition transcribes the constant return value of the corresponding
`Name()` method; `allScraperNames` lists all 49 scraper types defined across
the package's source files, in file order. -/

def ScrapeNDBInfoCPUStat.Name : String := NDBInfo ++ ".cpustat"

def ScrapeNDBInfoHWInfo.Name : String := NDBInfo ++ ".hwinfo"

def ScrapeNDBInfoArbSumDet.Name : String := NDBInfo ++ ".arbitrator_validity_summary"

def ScrapeNDBInfoBackupID.Name : String := NDBInfo ++ ".backup_id"

def ScrapeNDBInfoClusterLocks.Name : String := NDBInfo ++ ".cluster_locks"

def ScrapeNDBInfoClusterOperations.Name : String := NDBInfo ++ ".cluster_operations"

def ScrapeNDBInfoDictObjTree.Name : String := NDBInfo ++ ".dict_obj_tree"

def ScrapeNDBInfoDictObjTypes.Name : String := NDBInfo ++ ".dict_obj_types"

def ScrapeNDBInfoDiskStat.Name : String := NDBInfo ++ ".diskstat"

def ScrapeNDBInfoForeignKeys.Name : String := NDBInfo ++ ".foreign_keys"

def ScrapeNDBInfoCPUData.Name : String := NDBInfo ++ ".cpudata"

def ScrapeNDBInfoHashMaps.Name : String := NDBInfo ++ ".hash_maps"

def ScrapeNDBInfoIndexStats.Name : String := NDBInfo ++ ".index_stats"

def ScrapeNDBInfoLocksPerFragment.Name : String := NDBInfo ++ ".locks_per_fragment"

def ScrapeNDBInfoMemoryPerFragment.Name : String := NDBInfo ++ ".memory_per_fragment"

def ScrapeNDBInfoNodes.Name : String := NDBInfo ++ ".nodes"

def ScrapeNDBInfoDiskPageBuffer.Name : String := NDBInfo ++ ".diskpagebuffer"

def ScrapeNDBInfoOperationsPerFragment.Name : String := NDBInfo ++ ".operations_per_fragment"

def ScrapeNDBInfoResources.Name : String := NDBInfo ++ ".resources"

def ScrapeNDBInfoTransporterDetails.Name : String := NDBInfo ++ ".transporter_details"

def ScrapeNDBInfoClusterTransactions.Name : String := NDBInfo ++ ".cluster_transactions"

def ScrapeNDBInfoServerLocks.Name : String := NDBInfo ++ ".server_locks"

def ScrapeNDBInfoCPUInfo.Name : String := NDBInfo ++ ".cpuinfo"

def ScrapeNDBInfoServerOperations.Name : String := NDBInfo ++ ".server_operations"

def ScrapeNDBInfoServerTransactions.Name : String := NDBInfo ++ ".server_transactions"

def ScrapeNDBInfoTableFragments.Name : String := NDBInfo ++ ".table_fragments"

def ScrapeNDBInfoRestartInfo.Name : String := NDBInfo ++ ".restart_info"

def ScrapeNDBInfoTableInfo.Name : String := NDBInfo ++ ".table_info"

def ScrapeNDBInfoTCTimeTrackStats.Name : String := NDBInfo ++ ".tc_time_track_stats"

def ScrapeNDBInfoThreads.Name : String := NDBInfo ++ ".threads"

def ScrapeNDBInfoThreadStat.Name : String := NDBInfo ++ ".threadstat"

def ScrapeNDBInfoArbValDet.Name : String := NDBInfo ++ ".arbitrator_validity_detail"

def ScrapeNDBInfoThreadBlocks.Name : String := NDBInfo ++ ".threadblocks"

def ScrapeNDBInfoPGManTimeTrackStats.Name : String := NDBInfo ++ ".pgman_time_track_stats"

def ScrapeNDBInfoDictObjInfo.Name : String := NDBInfo ++ ".dict_obj_info"

def ScrapeNDBInfoBlobs.Name : String := NDBInfo ++ ".blobs"

def ScrapeNDBInfoTableDistributionStatus.Name : String := NDBInfo ++ ".table_distribution_status"

def ScrapeNDBInfoMemoryUsage.Name : String := NDBInfo ++ ".memoryusage"

def ScrapePerfNDBSyncPendingObjects.Name : String := performanceSchema ++ ".ndb_sync_pending_objects"

def ScrapeNDBInfoLogBuffers.Name : String := NDBInfo ++ ".logbuffers"

def ScrapeNDBInfoLogSpaces.Name : String := NDBInfo ++ ".logspaces"

/-- The `Name()` values of all 49 scraper types defined in the collector
package's source files, in file order. -/
def allScraperNames : List String :=
  [ ScrapeNDBConnectionMap.Name,
    ScrapeNDBInfoCPUStat.Name,
    ScrapeNDBInfoHWInfo.Name,
    ScrapeNDBInfoArbSumDet.Name,
    ScrapeNDBInfoBackupID.Name,
    ScrapeNDBInfoClusterLocks.Name,
    ScrapeNDBInfoClusterOperations.Name,
    ScrapeNDBInfoDictObjTree.Name,
    ScrapeNDBInfoDictObjTypes.Name,
    ScrapeNDBInfoDiskStat.Name,
    ScrapeNDBInfoFiles.Name,
    ScrapeNDBInfoForeignKeys.Name,
    ScrapeNDBInfoCPUData.Name,
    ScrapeNDBInfoHashMaps.Name,
    ScrapeNDBInfoIndexStats.Name,
    ScrapeNDBInfoLocksPerFragment.Name,
    ScrapeNDBInfoMemoryPerFragment.Name,
    ScrapeNDBInfoNodes.Name,
    ScrapeNDBInfoDiskPageBuffer.Name,
    ScrapeNDBInfoOperationsPerFragment.Name,
    ScrapeNDBInfoResources.Name,
    ScrapeNDBInfoTransporterDetails.Name,
    ScrapeNDBInfoClusterTransactions.Name,
    ScrapeNDBInfoServerLocks.Name,
    ScrapeNDBInfoCPUInfo.Name,
    ScrapeNDBInfoServerOperations.Name,
    ScrapeNDBInfoServerTransactions.Name,
    ScrapeNDBInfoTableFragments.Name,
    ScrapeNDBInfoRestartInfo.Name,
    ScrapeNDBInfoTableInfo.Name,
    ScrapeNDBInfoTCTimeTrackStats.Name,
    ScrapeNDBInfoThreads.Name,
    ScrapeNDBInfoThreadStat.Name,
    ScrapeNDBInfoTransporters.Name,
    ScrapePerfNDBSyncExcludedObjects.Name,
    ScrapeNDBInfoDiskWriteSpeedAggregate.Name,
    ScrapeNDBInfoArbValDet.Name,
    ScrapeNDBInfoTableReplicas.Name,
    ScrapeNDBInfoThreadBlocks.Name,
    ScrapeNDBInfoPGManTimeTrackStats.Name,
    ScrapeNDBInfoDictObjInfo.Name,
    ScrapeNDBInfoBlobs.Name,
    ScrapeNDBInfoTableDistributionStatus.Name,
    ScrapeNDBInfoCounters.Name,
    ScrapeNDBInfoMemoryUsage.Name,
    ScrapePerfNDBSyncPendingObjects.Name,
    ScrapeNDBInfoProcesses.Name,
    ScrapeNDBInfoLogBuffers.Name,
    ScrapeNDBInfoLogSpaces.Name ]

/-- Modelled from the spec: the Collector Driver (outside src/) reports a
failed scraper's error with the scraper's name attached as context; the
error text itself is passed through verbatim. -/
def scrapeOutcomeError (scraperName : String) (res : Option String) :
    Option String :=
  res.map (fun e => scraperName ++ ": " ++ e)

/-! ## Helper lemmas about the shared scrape body -/

theorem scrapeLoop_clean (emit : ρ → List Metric) (good : List ρ) (tr : Trace) :
    scrapeLoop emit (good.map Except.ok) tr =
      ((good.map emit).flatten, none,
        { tr with scans := tr.scans + good.length }) := by
  induction good generalizing tr with
  | nil => simp [scrapeLoop]
  | cons r rest ih =>
    simp [scrapeLoop, ih, Trace.mk.injEq]
    omega

theorem scrapeLoop_err (emit : ρ → List Metric) (good : List ρ) (e : String)
    (rest : List (Except String ρ)) (tr : Trace) :
    scrapeLoop emit (good.map Except.ok ++ Except.error e :: rest) tr =
      ((good.map emit).flatten, some e,
        { tr with scans := tr.scans + good.length + 1 }) := by
  induction good generalizing tr with
  | nil => simp [scrapeLoop]
  | cons r rest' ih =>
    simp [scrapeLoop, ih, Trace.mk.injEq]
    omega

theorem scrapeLoop_preserves_queries_closes (emit : ρ → List Metric)
    (rows : List (Except String ρ)) (tr : Trace) :
    (scrapeLoop emit rows tr).2.2.queries = tr.queries ∧
    (scrapeLoop emit rows tr).2.2.closes = tr.closes := by
  induction rows generalizing tr with
  | nil => simp [scrapeLoop]
  | cons x rest ih => cases x <;> simp [scrapeLoop, ih]

theorem scrapeLoop_scans_le (emit : ρ → List Metric)
    (rows : List (Except String ρ)) (tr : Trace) :
    (scrapeLoop emit rows tr).2.2.scans ≤ tr.scans + rows.length := by
  induction rows generalizing tr with
  | nil => simp [scrapeLoop]
  | cons x rest ih =>
    cases x with
    | error e => simp [scrapeLoop]
    | ok r =>
      simp only [scrapeLoop, List.length_cons]
      have h := ih { tr with scans := tr.scans + 1 }
      simp only at h
      omega

theorem scrapeRun_queryError (emit : ρ → List Metric) (e : String) (tr : Trace) :
    scrapeRun (Except.error e) emit tr =
      ⟨[], some e, ⟨tr.queries + 1, tr.scans, tr.closes⟩⟩ := rfl

theorem scrapeRun_clean (emit : ρ → List Metric) (good : List ρ) (tr : Trace) :
    scrapeRun (Except.ok (good.map Except.ok)) emit tr =
      ⟨(good.map emit).flatten, none,
        ⟨tr.queries + 1, tr.scans + good.length, tr.closes + 1⟩⟩ := by
  simp [scrapeRun, scrapeLoop_clean]

theorem scrapeRun_scanError (emit : ρ → List Metric) (good : List ρ)
    (e : String) (rest : List (Except String ρ)) (tr : Trace) :
    scrapeRun (Except.ok (good.map Except.ok ++ Except.error e :: rest)) emit tr =
      ⟨(good.map emit).flatten, some e,
        ⟨tr.queries + 1, tr.scans + good.length + 1, tr.closes + 1⟩⟩ := by
  simp [scrapeRun, scrapeLoop_err]

theorem flatten_length_const (emit : ρ → List Metric) (c : Nat)
    (h : ∀ r, (emit r).length = c) (good : List ρ) :
    ((good.map emit).flatten).length = c * good.length := by
  induction good with
  | nil => simp
  | cons r rest ih =>
    simp only [List.map_cons, List.flatten_cons, List.length_append,
      List.length_cons, ih, h, Nat.mul_succ]
    omega

theorem scrapeRun_ok_trace (emit : ρ → List Metric)
    (rows : List (Except String ρ)) (tr : Trace) :
    (scrapeRun (Except.ok rows) emit tr).trace.queries = tr.queries + 1 ∧
    (scrapeRun (Except.ok rows) emit tr).trace.closes = tr.closes + 1 ∧
    (scrapeRun (Except.ok rows) emit tr).trace.scans ≤ tr.scans + rows.length := by
  have hq := scrapeLoop_preserves_queries_closes emit rows
    { tr with queries := tr.queries + 1 }
  have hs := scrapeLoop_scans_le emit rows { tr with queries := tr.queries + 1 }
  rcases hm : scrapeLoop emit rows { tr with queries := tr.queries + 1 }
    with ⟨ms, res, tr2⟩
  rw [hm] at hq hs
  simp only [scrapeRun]
  rw [hm]
  cases res <;> simp_all

/-! ## Claim theorems -/

/-- C1: for every scraper's `Scrape`, when `QueryContext` succeeds and the
result set holds zero rows, no metric is sent to the channel and the returned
error is `nil`: stated for the shared scrape body under an arbitrary per-row
emission function — hence for every scraper — and instantiated at two
concrete scrapers. -/
theorem zero_rows_scrape_emits_nothing_and_succeeds :
    (∀ (ρ : Type) (emit : ρ → List Metric) (tr : Trace),
      (scrapeRun (Except.ok []) emit tr).metrics = [] ∧
      (scrapeRun (Except.ok []) emit tr).result = none) ∧
    (∀ tr : Trace, ScrapeNDBInfoTransporters.Scrape (Except.ok []) tr =
      ⟨[], none, ⟨tr.queries + 1, tr.scans, tr.closes + 1⟩⟩) ∧
    (∀ tr : Trace, ScrapePerfNDBSyncExcludedObjects.Scrape (Except.ok []) tr =
      ⟨[], none, ⟨tr.queries + 1, tr.scans, tr.closes + 1⟩⟩) := by
  refine ⟨fun ρ emit tr => ?_, fun tr => ?_, fun tr => ?_⟩ <;>
    simp [scrapeRun, scrapeLoop, ScrapeNDBInfoTransporters.Scrape,
      ScrapePerfNDBSyncExcludedObjects.Scrape]

/-- C2: for every scraper's `Scrape`, a `Scan` failure on row `k` emits no
metric for row `k` (nor for any later row, which is not even scanned), returns
the decode error, and the metrics of the previously decoded rows `1..k-1` have
already been sent; the equation holds for the shared scrape body under every
per-row emission function, so the partial-emission behavior is identical
across all scrapers. -/
theorem scan_error_keeps_prior_rows_drops_failing_row
    (ρ : Type) (emit : ρ → List Metric) (good : List ρ) (e : String)
    (rest : List (Except String ρ)) (tr : Trace) :
    scrapeRun (Except.ok (good.map Except.ok ++ Except.error e :: rest)) emit tr =
      ⟨(good.map emit).flatten, some e,
        ⟨tr.queries + 1, tr.scans + good.length + 1, tr.closes + 1⟩⟩ :=
  scrapeRun_scanError emit good e rest tr

/-- C5: for every scraper, a query error or decode error is returned as-is
(the very error value, no transformation and no retry): `QueryContext` runs
exactly once per `Scrape`, a failed query performs no `Scan` at all, a decode
failure at row `k` performs exactly `k` scans — one per consumed row — and in
general the number of `Scan` calls never exceeds the number of rows; the
scraper-name context is attached only by the driver around the verbatim
error. -/
theorem errors_returned_verbatim_no_internal_retry :
    (∀ (ρ : Type) (emit : ρ → List Metric) (e : String) (tr : Trace),
      (scrapeRun (Except.error e) emit tr).result = some e ∧
      (scrapeRun (Except.error e) emit tr).trace.queries = tr.queries + 1 ∧
      (scrapeRun (Except.error e) emit tr).trace.scans = tr.scans) ∧
    (∀ (ρ : Type) (emit : ρ → List Metric) (good : List ρ) (e : String)
        (rest : List (Except String ρ)) (tr : Trace),
      (scrapeRun (Except.ok (good.map Except.ok ++ Except.error e :: rest))
          emit tr).result = some e ∧
      (scrapeRun (Except.ok (good.map Except.ok ++ Except.error e :: rest))
          emit tr).trace.queries = tr.queries + 1 ∧
      (scrapeRun (Except.ok (good.map Except.ok ++ Except.error e :: rest))
          emit tr).trace.scans = tr.scans + (good.length + 1)) ∧
    (∀ (ρ : Type) (emit : ρ → List Metric) (rows : List (Except String ρ))
        (tr : Trace),
      (scrapeRun (Except.ok rows) emit tr).trace.queries = tr.queries + 1 ∧
      (scrapeRun (Except.ok rows) emit tr).trace.scans ≤ tr.scans + rows.length) ∧
    (∀ name e : String, scrapeOutcomeError name (some e) = some (name ++ ": " ++ e)) := by
  refine ⟨fun ρ emit e tr => ?_, fun ρ emit good e rest tr => ?_,
    fun ρ emit rows tr => ?_, fun name e => rfl⟩
  · simp [scrapeRun_queryError]
  · simp [scrapeRun_scanError]
    omega
  · exact ⟨(scrapeRun_ok_trace emit rows tr).1, (scrapeRun_ok_trace emit rows tr).2.2⟩

/-- C6: once `QueryContext` has returned a row set, that row set is closed
exactly once before `Scrape` returns on every exit path — stated for an
arbitrary row list, then separately for the early-return path on a decode
error and for normal completion of the row loop; a failed query acquired no
row set and closes nothing. -/
theorem result_set_closed_on_every_exit_path :
    (∀ (ρ : Type) (emit : ρ → List Metric) (rows : List (Except String ρ))
        (tr : Trace),
      (scrapeRun (Except.ok rows) emit tr).trace.closes = tr.closes + 1) ∧
    (∀ (ρ : Type) (emit : ρ → List Metric) (good : List ρ) (e : String)
        (rest : List (Except String ρ)) (tr : Trace),
      (scrapeRun (Except.ok (good.map Except.ok ++ Except.error e :: rest))
          emit tr).trace.closes = tr.closes + 1) ∧
    (∀ (ρ : Type) (emit : ρ → List Metric) (good : List ρ) (tr : Trace),
      (scrapeRun (Except.ok (good.map Except.ok)) emit tr).trace.closes
        = tr.closes + 1) ∧
    (∀ (ρ : Type) (emit : ρ → List Metric) (e : String) (tr : Trace),
      (scrapeRun (Except.error e) emit tr).trace.closes = tr.closes) := by
  refine ⟨fun ρ emit rows tr => (scrapeRun_ok_trace emit rows tr).2.1,
    fun ρ emit good e rest tr => ?_, fun ρ emit good tr => ?_,
    fun ρ emit e tr => rfl⟩
  · simp [scrapeRun_scanError]
  · simp [scrapeRun_clean]

/-- C9: the number of metrics emitted per successfully decoded row is a fixed
per-scraper constant independent of the row's contents — 14 for
`disk_write_speed_aggregate`, 7 for `transporters`, 1 for `counters` (in both
of its branches), 6 for `files`, 11 for `table_replicas`, 1 for
`ndb_sync_excluded_objects`, 1 for `processes`, 1 for the connection map —
and a fully successful scrape over `n` rows emits exactly `constant * n`
metrics. -/
theorem metrics_per_row_is_scraper_constant :
    (∀ r, (ScrapeNDBInfoDiskWriteSpeedAggregate.emitRow r).length = 14) ∧
    (∀ r, (ScrapeNDBInfoTransporters.emitRow r).length = 7) ∧
    (∀ r, (ScrapeNDBInfoCounters.emitRow r).length = 1) ∧
    (∀ r, (ScrapeNDBInfoFiles.emitRow r).length = 6) ∧
    (∀ r, (ScrapeNDBInfoTableReplicas.emitRow r).length = 11) ∧
    (∀ r, (ScrapePerfNDBSyncExcludedObjects.emitRow r).length = 1) ∧
    (∀ r, (ScrapeNDBInfoProcesses.emitRow r).length = 1) ∧
    (∀ r, (ScrapeNDBConnectionMap.emitRow r).length = 1) ∧
    (∀ (ρ : Type) (emit : ρ → List Metric) (c : Nat),
      (∀ r, (emit r).length = c) →
      ∀ (good : List ρ) (tr : Trace),
        (scrapeRun (Except.ok (good.map Except.ok)) emit tr).metrics.length
          = c * good.length) := by
  refine ⟨fun r => rfl, fun r => rfl, fun r => ?_, fun r => rfl, fun r => rfl,
    fun r => rfl, fun r => rfl, fun r => rfl, fun ρ emit c h good tr => ?_⟩
  · rcases hm : countersLookup r.counterName with _ | ⟨vt, d⟩ <;>
      simp [ScrapeNDBInfoCounters.emitRow, hm]
  · rw [scrapeRun_clean]
    exact flatten_length_const emit c h good

/-- Witness for C9 at concrete inputs: a fully successful transporters scrape
over two rows emits exactly `7 * 2` metrics. -/
theorem metrics_per_row_is_scraper_constant_witness :
    (scrapeRun
        (Except.ok ([⟨"1", "2", "C", "a", 1, 2, 3, 4, 5, 6, 7⟩,
          ⟨"3", "4", "D", "b", 8, 9, 10, 11, 12, 13, 14⟩].map Except.ok))
        ScrapeNDBInfoTransporters.emitRow ⟨0, 0, 0⟩).metrics.length = 7 * 2 :=
  metrics_per_row_is_scraper_constant.2.2.2.2.2.2.2.2 TransportersRow
    ScrapeNDBInfoTransporters.emitRow 7
    metrics_per_row_is_scraper_constant.2.1
    [⟨"1", "2", "C", "a", 1, 2, 3, 4, 5, 6, 7⟩,
      ⟨"3", "4", "D", "b", 8, 9, 10, 11, 12, 13, 14⟩] ⟨0, 0, 0⟩

theorem lookup_mem {α β : Type} [BEq α] [LawfulBEq α] {l : List (α × β)}
    {a : α} {b : β} (h : l.lookup a = some b) : (a, b) ∈ l := by
  induction l with
  | nil => simp [List.lookup] at h
  | cons p rest ih =>
    rcases p with ⟨k, v⟩
    simp only [List.lookup] at h
    split at h
    · next heq =>
      cases h
      have hk : a = k := eq_of_beq heq
      subst hk
      exact List.mem_cons_self _ _
    · next => exact List.mem_cons_of_mem _ (ih h)

theorem countersTypes_arity (p : String × ValueType × Desc)
    (hp : p ∈ ndbinfoCountersTypes) : p.2.2.variableLabels.length = 1 := by
  fin_cases hp <;> rfl

theorem countersTypes_fqName (p : String × ValueType × Desc)
    (hp : p ∈ ndbinfoCountersTypes) :
    ∃ name, p.2.2.fqName = BuildFQName nameSpace NDBInfo name := by
  fin_cases hp <;> exact ⟨_, rfl⟩

/-- C3: a nullable source column is coalesced to its defined default — empty
string for text, zero for numeric — in the scraper's own SELECT list before
it reaches `Scan`, so a SQL null is never propagated into an emitted label or
value: shown for the two scrapers reading nullable columns that the claim
cites, `performance_schema.ndb_sync_excluded_objects` (nullable text
`SCHEMA_NAME`/`NAME`, `IFNULL(_, '')`) and `ndbinfo.processes` (nullable
numeric `angel_process_id`, `IFNULL(_, 0)`). -/
theorem nullable_columns_coalesce_to_defaults
    (t : NdbSyncExcludedObjectsTableRow) (p : ProcessesTableRow)
    (h1 : t.schemaNameCol = none) (h2 : t.nameCol = none)
    (h3 : p.angelProcessIDCol = none) :
    ScrapePerfNDBSyncExcludedObjects.emitRow (perfNDBSyncExcludedObjectsSelect t)
      = [⟨performanceSchemaNDBSyncExcludedObjectssDesc, ValueType.untypedValue, 1,
          ["", "", t.typeCol, t.reasonCol]⟩] ∧
    ScrapeNDBInfoProcesses.emitRow (ndbinfoProcessesSelect p)
      = [⟨ndbinfoProcessesAngelProcessIDDesc, ValueType.gaugeValue, 0,
          [p.nodeIDCol, p.nodeTypeCol, p.nodeVersionCol, p.processIDCol,
            p.processNameCol, p.serviceURICol]⟩] := by
  constructor <;>
    simp [ScrapePerfNDBSyncExcludedObjects.emitRow,
      perfNDBSyncExcludedObjectsSelect, ScrapeNDBInfoProcesses.emitRow,
      ndbinfoProcessesSelect, IFNULL, h1, h2, h3]

/-- Witness for C3 at concrete rows with null columns. -/
theorem nullable_columns_coalesce_witness :
    ScrapePerfNDBSyncExcludedObjects.emitRow
        (perfNDBSyncExcludedObjectsSelect ⟨none, none, "TABLE", "r"⟩)
      = [⟨performanceSchemaNDBSyncExcludedObjectssDesc, ValueType.untypedValue, 1,
          ["", "", "TABLE", "r"]⟩] ∧
    ScrapeNDBInfoProcesses.emitRow
        (ndbinfoProcessesSelect ⟨"1", "NDB", "8.0", "2", none, "ndbmtd", "u"⟩)
      = [⟨ndbinfoProcessesAngelProcessIDDesc, ValueType.gaugeValue, 0,
          ["1", "NDB", "8.0", "2", "ndbmtd", "u"]⟩] :=
  nullable_columns_coalesce_to_defaults ⟨none, none, "TABLE", "r"⟩
    ⟨"1", "NDB", "8.0", "2", none, "ndbmtd", "u"⟩ rfl rfl rfl

/-- C4: every metric a modelled scraper emits carries exactly as many label
values as its descriptor declares label names, so the fail-fast check of
`MustNewConstMetric` never fires on scraper output; and constructing a metric
with a mismatched label-value count fails fast instead of producing a
malformed metric. -/
theorem emitted_metric_label_arity_matches_descriptor :
    (∀ r, (ScrapeNDBInfoTransporters.emitRow r).all arityOk = true) ∧
    (∀ r, (ScrapePerfNDBSyncExcludedObjects.emitRow r).all arityOk = true) ∧
    (∀ r, (ScrapeNDBInfoDiskWriteSpeedAggregate.emitRow r).all arityOk = true) ∧
    (∀ r, (ScrapeNDBInfoTableReplicas.emitRow r).all arityOk = true) ∧
    (∀ r, (ScrapeNDBInfoFiles.emitRow r).all arityOk = true) ∧
    (∀ r, (ScrapeNDBInfoProcesses.emitRow r).all arityOk = true) ∧
    (∀ r, (ScrapeNDBConnectionMap.emitRow r).all arityOk = true) ∧
    (∀ r, (ScrapeNDBInfoCounters.emitRow r).all arityOk = true) ∧
    (∀ m : Metric, arityOk m = true →
      NewConstMetric m.desc m.vtype m.value m.labelValues = Except.ok m) ∧
    (∀ (d : Desc) (vt : ValueType) (v : Nat) (lvs : List String),
      lvs.length ≠ d.variableLabels.length →
      NewConstMetric d vt v lvs
        = Except.error "inconsistent label cardinality") := by
  refine ⟨fun r => rfl, fun r => rfl, fun r => rfl, fun r => rfl, fun r => rfl,
    fun r => rfl, fun r => rfl, fun r => ?_, fun m hm => ?_,
    fun d vt v lvs h => ?_⟩
  · rcases hm : countersLookup r.counterName with _ | ⟨vt, d⟩
    · simp [ScrapeNDBInfoCounters.emitRow, hm, arityOk, countersUnknownDesc,
        NewDesc]
    · have harity := countersTypes_arity (r.counterName, vt, d) (lookup_mem hm)
      simp only at harity
      simp [ScrapeNDBInfoCounters.emitRow, hm, arityOk, harity]
  · have h' : m.labelValues.length = m.desc.variableLabels.length := by
      simpa [arityOk] using hm
    simp [NewConstMetric, h']
  · simp [NewConstMetric, h]

/-- Witness for C4: a mismatched construction fails fast at a concrete input,
and a concrete transporters row passes the arity check. -/
theorem emitted_metric_label_arity_witness :
    NewConstMetric ndbinfoTransportersBytesTotalDesc ValueType.counterValue 1 []
      = Except.error "inconsistent label cardinality" ∧
    (ScrapeNDBInfoTransporters.emitRow
        ⟨"1", "2", "C", "a", 1, 2, 3, 4, 5, 6, 7⟩).all arityOk = true :=
  ⟨emitted_metric_label_arity_matches_descriptor.2.2.2.2.2.2.2.2.2
      ndbinfoTransportersBytesTotalDesc ValueType.counterValue 1 [] (by decide),
    emitted_metric_label_arity_matches_descriptor.1
      ⟨"1", "2", "C", "a", 1, 2, 3, 4, 5, 6, 7⟩⟩

/-- C7: `Name()` of every scraper type is a constant string (each definition
above transcribes one method's fixed return value), and the 49 names are
pairwise distinct across all scraper types of the collector package, so
registering all of them never triggers a duplicate-name failure. -/
theorem scraper_names_pairwise_distinct : allScraperNames.Nodup := by decide

/-- C8: in the counters scraper, a row whose `counter_name` is a key of
`ndbinfoCountersTypes` emits exactly one metric carrying that table entry's
pre-declared descriptor and value type, and a row with an unrecognized
`counter_name` emits exactly one untyped metric whose descriptor is rebuilt
at that row from the row's counter name under the dynamically formed name
`counter_<lowercased counter_name>`. -/
theorem counters_known_uses_table_unknown_builds_fresh (r : CountersRow) :
    (∀ vt d, countersLookup r.counterName = some (vt, d) →
      ScrapeNDBInfoCounters.emitRow r = [⟨d, vt, r.val, [r.nodeID]⟩] ∧
      (r.counterName, vt, d) ∈ ndbinfoCountersTypes) ∧
    (countersLookup r.counterName = none →
      ScrapeNDBInfoCounters.emitRow r
        = [⟨countersUnknownDesc r.counterName, ValueType.untypedValue, r.val,
            [r.nodeID]⟩] ∧
      (countersUnknownDesc r.counterName).fqName
        = BuildFQName nameSpace informationSchema
            ("counter_" ++ r.counterName.toLower)) := by
  refine ⟨fun vt d h => ⟨?_, lookup_mem h⟩, fun h => ⟨?_, rfl⟩⟩ <;>
    simp [ScrapeNDBInfoCounters.emitRow, h]

/-- Witness for C8: the known counter `ATTRINFO` and the unknown counter
`FOO` at concrete rows. -/
theorem counters_known_unknown_witness :
    ScrapeNDBInfoCounters.emitRow ⟨"1", "ATTRINFO", 5⟩
      = [⟨NewDesc (BuildFQName nameSpace NDBInfo "counters_attrinfo_total")
            "The number of times an interpreted program is sent to the data node by node_id."
            ["node_id"], ValueType.counterValue, 5, ["1"]⟩] ∧
    ScrapeNDBInfoCounters.emitRow ⟨"2", "FOO", 9⟩
      = [⟨countersUnknownDesc "FOO", ValueType.untypedValue, 9, ["2"]⟩] :=
  ⟨((counters_known_uses_table_unknown_builds_fresh ⟨"1", "ATTRINFO", 5⟩).1
      ValueType.counterValue
      (NewDesc (BuildFQName nameSpace NDBInfo "counters_attrinfo_total")
        "The number of times an interpreted program is sent to the data node by node_id."
        ["node_id"]) (by decide)).1,
    ((counters_known_uses_table_unknown_builds_fresh ⟨"2", "FOO", 9⟩).2
      (by decide)).1⟩

/-- C10: a counters metric for an unrecognized counter name is emitted under
the `informationSchema` subsystem — its descriptor's fully-qualified name is
`BuildFQName` of the `informationSchema` constant — while every recognized
counter name's pre-declared descriptor was built with `BuildFQName` of the
`NDBInfo` constant; the two subsystem constants differ, so the name prefix
depends on whether the counter name is in the lookup table. -/
theorem counters_fqname_subsystem_depends_on_lookup (r : CountersRow) :
    (countersLookup r.counterName = none →
      ∃ m, ScrapeNDBInfoCounters.emitRow r = [m] ∧
        m.desc.fqName = BuildFQName nameSpace informationSchema
          ("counter_" ++ r.counterName.toLower)) ∧
    (∀ vt d, countersLookup r.counterName = some (vt, d) →
      ∃ mName, ScrapeNDBInfoCounters.emitRow r = [⟨d, vt, r.val, [r.nodeID]⟩] ∧
        d.fqName = BuildFQName nameSpace NDBInfo mName) ∧
    informationSchema ≠ NDBInfo := by
  refine ⟨fun h => ?_, fun vt d h => ?_, by decide⟩
  · refine ⟨⟨countersUnknownDesc r.counterName, ValueType.untypedValue, r.val,
      [r.nodeID]⟩, ?_, rfl⟩
    simp [ScrapeNDBInfoCounters.emitRow, h]
  · obtain ⟨mName, hn⟩ := countersTypes_fqName (r.counterName, vt, d)
      (lookup_mem h)
    exact ⟨mName, by simp [ScrapeNDBInfoCounters.emitRow, h], hn⟩

/-- Witness for C10: both branches at concrete rows — unknown counter `BAR`
and known counter `READS`. -/
theorem counters_fqname_subsystem_witness :
    (∃ m, ScrapeNDBInfoCounters.emitRow ⟨"7", "BAR", 3⟩ = [m] ∧
      m.desc.fqName = BuildFQName nameSpace informationSchema
        ("counter_" ++ "BAR".toLower)) ∧
    (∃ mName, ScrapeNDBInfoCounters.emitRow ⟨"8", "READS", 4⟩
        = [⟨NewDesc (BuildFQName nameSpace NDBInfo "counters_reads_total")
              "The amount of all read operations by node_id."
              ["node_id"], ValueType.counterValue, 4, ["8"]⟩] ∧
      (NewDesc (BuildFQName nameSpace NDBInfo "counters_reads_total")
          "The amount of all read operations by node_id."
          ["node_id"]).fqName = BuildFQName nameSpace NDBInfo mName) :=
  ⟨(counters_fqname_subsystem_depends_on_lookup ⟨"7", "BAR", 3⟩).1 (by decide),
    (counters_fqname_subsystem_depends_on_lookup ⟨"8", "READS", 4⟩).2.1
      ValueType.counterValue
      (NewDesc (BuildFQName nameSpace NDBInfo "counters_reads_total")
        "The amount of all read operations by node_id."
        ["node_id"]) (by decide)⟩

end NDBExporter
